import Mathlib

/-! Verification of arduino-lirc: the pulse capture and emit pipeline.

A shallow embedding of `source/application/arduino-lirc/main.cpp`.

The three `volatile` globals (`hadOverflow`, `pulseIsHigh`, `pulseLength`) form the
shared slot.  The interrupt handlers are functions on the slot; what they read from the
hardware (`ICR1`, `digitalRead( irPin )`) is an argument.  `Serial.write` appends a byte
to the transmitted stream.  Machine integers are naturals with the truncation written
out: `uint8_t` is `% 256`, `uint16_t` is `% 65536`, `uint32_t` is `% 4294967296`.

Effects on the LED pin, the debug pin and the timer registers (`TCNT1`, `TCCR1B`,
`TIFR1`) do not reach the slot or the serial stream and are left out.
-/

namespace ArduinoLirc

/-! ## Data model -/

/-- The shared globals of `main.cpp` (lines 51-53). -/
structure Slot where
  /-- Global `volatile uint8_t hadOverflow`. -/
  hadOverflow : Nat
  /-- Global `volatile bool pulseIsHigh`. -/
  pulseIsHigh : Bool
  /-- Global `volatile uint16_t pulseLength`. -/
  pulseLength : Nat
  deriving DecidableEq

/-- Zero-initialised globals at program start. -/
def boot : Slot := { hadOverflow := 0, pulseIsHigh := false, pulseLength := 0 }

/-! ## Interrupt handlers -/

/-- Handler `ISR( TIMER1_OVF_vect )` (lines 90-104); `irHigh` is the value of `IrHigh()`. -/
def ISR_TIMER1_OVF (irHigh : Bool) (s : Slot) : Slot :=
  let tmp : Nat := if irHigh then 0xff else 0x7f
  { s with hadOverflow := tmp }

/-- Handler `ISR( TIMER1_CAPT_vect )` (lines 124-142); `icr1` is the captured count `ICR1`,
`irHigh` is the value of `IrHigh()` read in the handler. -/
def ISR_TIMER1_CAPT (icr1 : Nat) (irHigh : Bool) (s : Slot) : Slot :=
  { s with pulseLength := icr1 % 65536, pulseIsHigh := irHigh }

/-! ## Serial output -/

/-- Function `TxWord` (lines 169-173): two `Serial.write` calls, low byte first. -/
def TxWord (t : Nat) : List Nat :=
  [(t &&& 0xff) % 256, ((t >>> 8) &&& 0xff) % 256]

/-! ## Timescale conversion -/

/-- The macro `SCALE_DENOM(fosc)` (line 43). -/
def SCALE_DENOM (fosc : Nat) : Nat := (fosc / 256) / 4

/-- Lines 240-257 of `EmitPulseData`: the `uint32_t` scaling of `len`, the range limit
and the zero bump.  `fosc` is the argument of `SCALE_DENOM`; the source passes
`16000000`. -/
def scaleLength (fosc len : Nat) : Nat :=
  let l := (len * 4096 % 4294967296) / SCALE_DENOM fosc
  let len := if l > 0x7fff then 0x7fff else l % 65536
  if len = 0 then (len + 1) % 65536 else len

/-! ## The emitter -/

/-- The argument of `TxWord` in the overflow branch (line 236), as a `uint16_t`. -/
def overflowWord (overflow : Nat) : Nat :=
  ((overflow <<< 8) ||| 0xff) % 65536

/-- The argument of `TxWord` in the measurement branch (lines 240-264): `len` scaled, then
the top bit set when the local `high` is zero. -/
def measurementWord (len high : Nat) : Nat :=
  let len := scaleLength 16000000 len
  if high = 0 then (len ||| 0x8000) % 65536 else len

/-- One pass through the body of the `while` loop of `EmitPulseData` (lines 218-265):
the snapshot and clear of the slot, then the bytes written. -/
def emitBody (s : Slot) : Slot × List Nat :=
  let len := s.pulseLength
  let high : Nat := if s.pulseIsHigh then 1 else 0
  let overflow := s.hadOverflow
  let s' : Slot := { s with pulseLength := 0, hadOverflow := 0 }
  if overflow ≠ 0 then
    (s', TxWord (overflowWord overflow))
  else
    (s', TxWord (measurementWord len high))

/-- Function `EmitPulseData` (lines 210-267) with no interrupt taken while it runs.  The first
argument bounds the number of evaluations of the loop condition; `tx` is the serial
stream written so far.  `none` means the bound was reached. -/
def EmitPulseData : Nat → Slot → List Nat → Option (Slot × List Nat)
  | 0, _, _ => none
  | fuel + 1, s, tx =>
    if s.pulseLength ≠ 0 then
      EmitPulseData fuel (emitBody s).1 (tx ++ (emitBody s).2)
    else
      some (s, tx)

/-! ## Event traces -/

/-- What can happen to the slot: a capture interrupt, a timer overflow interrupt, or a
call of `EmitPulseData` from the main loop. -/
inductive Event where
  | capt (icr1 : Nat) (irHigh : Bool)
  | ovf (irHigh : Bool)
  | drain
  deriving DecidableEq

/-- One event applied to the slot and the serial stream. -/
def step (fuel : Nat) (m : Slot × List Nat) : Event → Option (Slot × List Nat)
  | Event.capt icr1 irHigh => some (ISR_TIMER1_CAPT icr1 irHigh m.1, m.2)
  | Event.ovf irHigh => some (ISR_TIMER1_OVF irHigh m.1, m.2)
  | Event.drain => EmitPulseData fuel m.1 m.2

/-- A trace of events applied in order. -/
def run (fuel : Nat) : Slot × List Nat → List Event → Option (Slot × List Nat)
  | m, [] => some m
  | m, e :: es => (step fuel m e).bind (fun m' => run fuel m' es)

/-- The trace in which every capture `(ICR1, IrHigh())` of the list is followed by a call
of `EmitPulseData`. -/
def captureDrainTrace : List (Nat × Bool) → List Event
  | [] => []
  | c :: cs => Event.capt c.1 c.2 :: Event.drain :: captureDrainTrace cs

/-- The byte stream `out` holds the bytes of word `w1` and, somewhere after them, the bytes
of word `w2`. -/
def EmitsBefore (out : List Nat) (w1 w2 : Nat) : Prop :=
  ∃ pre mid post, out = pre ++ TxWord w1 ++ mid ++ TxWord w2 ++ post

/-- Line 243 of `EmitPulseData`: the `uint32_t` value `l`, before the range limit. -/
def scaledLong (fosc len : Nat) : Nat :=
  (len * 4096 % 4294967296) / SCALE_DENOM fosc

/-- Lines 245-252 of `EmitPulseData`: the `uint16_t` value of `len` after the range limit
and before the zero bump. -/
def limitedLength (l : Nat) : Nat :=
  if l > 0x7fff then 0x7fff else l % 65536

/-- The byte stream `out` holds the bytes of word `w`. -/
def Emits (out : List Nat) (w : Nat) : Prop :=
  ∃ pre post, out = pre ++ TxWord w ++ post

/-! ## Helper lemmas -/

theorem SCALE_DENOM_16MHz : SCALE_DENOM 16000000 = 15625 := by decide

theorem TxWord_bytes (t : Nat) (ht : t < 65536) : TxWord t = [t % 256, t / 256] := by
  have h1 : t &&& 0xff = t % 256 := Nat.and_pow_two_sub_one_eq_mod t 8
  have h2 : (t / 256) &&& 0xff = (t / 256) % 256 := Nat.and_pow_two_sub_one_eq_mod (t / 256) 8
  have h3 : t >>> 8 = t / 256 := by rw [Nat.shiftRight_eq_div_pow]
  have h4 : t / 256 < 256 := by omega
  simp only [TxWord, h3, h1, h2, Nat.mod_mod, Nat.mod_eq_of_lt h4]

theorem or_0x8000 (d : Nat) (hd : d < 32768) : d ||| 0x8000 = d + 32768 := by
  have h := Nat.mul_add_lt_is_or (i := 15) (b := d) (by simpa using hd) 1
  rw [Nat.or_comm]
  simpa [Nat.add_comm] using h.symm

theorem scaleLength_eq (fosc t : Nat) (ht : t ≤ 65535) :
    scaleLength fosc t = max 1 (min 32767 (t * 4096 / SCALE_DENOM fosc)) := by
  simp only [scaleLength]
  have h1 : t * 4096 % 4294967296 = t * 4096 := Nat.mod_eq_of_lt (by omega)
  rw [h1]
  generalize t * 4096 / SCALE_DENOM fosc = x
  by_cases hx : 32767 < x
  · rw [Nat.min_eq_left (Nat.le_of_lt hx)]
    simp [hx]
  · rw [Nat.min_eq_right (by omega)]
    have hm : x % 65536 = x := Nat.mod_eq_of_lt (by omega)
    rcases Nat.eq_zero_or_pos x with h0 | h0
    · simp [h0]
    · rw [Nat.max_eq_right h0]
      have hne : x ≠ 0 := by omega
      simp [hx, hm, hne]

theorem scaleLength_16MHz (t : Nat) (ht : t ≤ 65535) :
    scaleLength 16000000 t = max 1 (min 32767 (t * 4096 / 15625)) := by
  rw [scaleLength_eq 16000000 t ht, SCALE_DENOM_16MHz]

theorem EmitPulseData_fuel (fuel : Nat) (hf : 2 ≤ fuel) (s : Slot) (tx : List Nat) :
    EmitPulseData fuel s tx =
      some (if s.pulseLength ≠ 0 then ((emitBody s).1, tx ++ (emitBody s).2) else (s, tx)) := by
  obtain ⟨k, rfl⟩ : ∃ k, fuel = k + 2 := ⟨fuel - 2, by omega⟩
  have hclr : (emitBody s).1.pulseLength = 0 := by
    simp only [emitBody]
    split_ifs <;> rfl
  by_cases h : s.pulseLength ≠ 0
  · simp only [EmitPulseData, h, hclr, if_true, ne_eq, not_true_eq_false, if_false]
    simp
  · simp [EmitPulseData, h]

theorem shl8_or_0xff (ov : Nat) : (ov <<< 8) ||| 0xff = ov * 256 + 255 := by
  have h := Nat.mul_add_lt_is_or (i := 8) (b := 255) (by decide) ov
  have h1 : ov <<< 8 = 2 ^ 8 * ov := by rw [Nat.shiftLeft_eq, Nat.mul_comm]
  rw [h1, ← h]
  omega

theorem overflowWord_eq (ov : Nat) (hov : ov < 256) : overflowWord ov = ov * 256 + 255 := by
  rw [overflowWord, shl8_or_0xff]
  exact Nat.mod_eq_of_lt (by omega)

theorem TxWord_overflowWord (ov : Nat) (hov : ov < 256) :
    TxWord (overflowWord ov) = [0xff, ov] := by
  rw [overflowWord_eq ov hov, TxWord_bytes _ (by omega)]
  have h1 : (ov * 256 + 255) % 256 = 255 := by omega
  have h2 : (ov * 256 + 255) / 256 = ov := by omega
  rw [h1, h2]

theorem scaled_lt (x : Nat) : max 1 (min 32767 x) < 32768 := by
  have : min 32767 x ≤ 32767 := Nat.min_le_left _ _
  omega

theorem measurementWord_eq (t : Nat) (h : Bool) (ht : t ≤ 65535) :
    measurementWord t (if h then 1 else 0) =
      if h then max 1 (min 32767 (t * 4096 / 15625))
      else max 1 (min 32767 (t * 4096 / 15625)) + 32768 := by
  have hd := scaled_lt (t * 4096 / 15625)
  cases h
  · simp only [measurementWord, scaleLength_16MHz t ht, or_0x8000 _ hd]
    have : (max 1 (min 32767 (t * 4096 / 15625)) + 32768) % 65536
        = max 1 (min 32767 (t * 4096 / 15625)) + 32768 := Nat.mod_eq_of_lt (by omega)
    simp [this]
  · simp [measurementWord, scaleLength_16MHz t ht]

theorem measurementWord_lt (t : Nat) (h : Bool) (ht : t ≤ 65535) :
    measurementWord t (if h then 1 else 0) < 65536 := by
  rw [measurementWord_eq t h ht]
  have hd := scaled_lt (t * 4096 / 15625)
  cases h
  · simp only [Bool.false_eq_true, if_false]; omega
  · simp only [if_true]; omega

theorem measurementWord_low (t : Nat) (h : Bool) (ht : t ≤ 65535) :
    measurementWord t (if h then 1 else 0) % 32768 = max 1 (min 32767 (t * 4096 / 15625)) := by
  rw [measurementWord_eq t h ht]
  have hd := scaled_lt (t * 4096 / 15625)
  cases h
  · simp only [Bool.false_eq_true, if_false]; omega
  · simp only [if_true]; omega

theorem measurementWord_bit15 (t : Nat) (h : Bool) (ht : t ≤ 65535) :
    (measurementWord t (if h then 1 else 0)).testBit 15 = !h := by
  rw [measurementWord_eq t h ht]
  have hd := scaled_lt (t * 4096 / 15625)
  have hb : (max 1 (min 32767 (t * 4096 / 15625))).testBit 15 = false :=
    Nat.testBit_lt_two_pow (show _ < 2 ^ 15 from hd)
  cases h
  · simp only [Bool.false_eq_true, if_false, Bool.not_false]
    rw [Nat.add_comm]
    have := Nat.testBit_two_pow_add_eq (max 1 (min 32767 (t * 4096 / 15625))) 15
    rw [hb] at this
    exact this
  · simp only [if_true, Bool.not_true]
    exact hb

theorem emitBody_measure (s : Slot) (hov : s.hadOverflow = 0) :
    emitBody s =
      ({ s with pulseLength := 0, hadOverflow := 0 },
        TxWord (measurementWord s.pulseLength (if s.pulseIsHigh then 1 else 0))) := by
  simp [emitBody, hov]

theorem emitBody_overflow (s : Slot) (hov : s.hadOverflow ≠ 0) (hr : s.hadOverflow < 256) :
    emitBody s =
      ({ s with pulseLength := 0, hadOverflow := 0 }, [0xff, s.hadOverflow]) := by
  simp only [emitBody, hov, ne_eq, not_false_eq_true, if_true, TxWord_overflowWord _ hr]

/-- A drain that finds ticks pending and no overflow marker: one measurement word. -/
theorem EmitPulseData_measure (fuel : Nat) (hf : 2 ≤ fuel) (s : Slot) (tx : List Nat)
    (hov : s.hadOverflow = 0) (hlen : s.pulseLength ≠ 0) :
    EmitPulseData fuel s tx =
      some ({ s with pulseLength := 0, hadOverflow := 0 },
        tx ++ TxWord (measurementWord s.pulseLength (if s.pulseIsHigh then 1 else 0))) := by
  rw [EmitPulseData_fuel fuel hf, emitBody_measure s hov]
  simp [hlen]

/-- A drain that finds ticks pending and an overflow marker: one overflow word. -/
theorem EmitPulseData_overflow (fuel : Nat) (hf : 2 ≤ fuel) (s : Slot) (tx : List Nat)
    (hov : s.hadOverflow ≠ 0) (hr : s.hadOverflow < 256) (hlen : s.pulseLength ≠ 0) :
    EmitPulseData fuel s tx =
      some ({ s with pulseLength := 0, hadOverflow := 0 }, tx ++ [0xff, s.hadOverflow]) := by
  rw [EmitPulseData_fuel fuel hf, emitBody_overflow s hov hr]
  simp [hlen]

/-- A drain that finds no ticks pending writes nothing and changes nothing. -/
theorem EmitPulseData_idle (fuel : Nat) (hf : 2 ≤ fuel) (s : Slot) (tx : List Nat)
    (hlen : s.pulseLength = 0) : EmitPulseData fuel s tx = some (s, tx) := by
  rw [EmitPulseData_fuel fuel hf]
  simp [hlen]

/-- Any number of capture interrupts leaves `hadOverflow` as it was. -/
theorem captures_hadOverflow (caps : List (Nat × Bool)) (s : Slot) :
    (caps.foldl (fun s c => ISR_TIMER1_CAPT c.1 c.2 s) s).hadOverflow = s.hadOverflow := by
  induction caps generalizing s with
  | nil => rfl
  | cons c cs ih => simp only [List.foldl_cons]; rw [ih]; rfl

theorem ISR_TIMER1_OVF_idem (irHigh : Bool) (s : Slot) :
    ISR_TIMER1_OVF irHigh (ISR_TIMER1_OVF irHigh s) = ISR_TIMER1_OVF irHigh s := rfl

theorem ISR_TIMER1_OVF_iterate (irHigh : Bool) (s : Slot) (n : Nat) :
    (ISR_TIMER1_OVF irHigh)^[n + 1] s = ISR_TIMER1_OVF irHigh s := by
  induction n with
  | zero => rfl
  | succ k ih => rw [Function.iterate_succ_apply', ih, ISR_TIMER1_OVF_idem]

/-- Capture-then-drain, repeated, with no overflow marker set: one measurement word per
capture, in order. -/
theorem run_captureDrainTrace (fuel : Nat) (hf : 2 ≤ fuel) (caps : List (Nat × Bool)) :
    ∀ (s : Slot) (tx : List Nat), s.hadOverflow = 0 →
      (∀ c ∈ caps, 1 ≤ c.1 ∧ c.1 ≤ 65535) →
      ∃ s' : Slot, s'.hadOverflow = 0 ∧
        run fuel (s, tx) (captureDrainTrace caps) = some (s', tx ++
          ((caps.map (fun c => measurementWord c.1 (if c.2 then 1 else 0))).map
            TxWord).flatten) := by
  induction caps with
  | nil =>
    intro s tx hs _
    exact ⟨s, hs, by simp [captureDrainTrace, run]⟩
  | cons c cs ih =>
    intro s tx hs hc
    have hc1 := hc c (List.mem_cons_self c cs)
    have htm : c.1 % 65536 = c.1 := Nat.mod_eq_of_lt (by omega)
    have hm := EmitPulseData_measure fuel hf (ISR_TIMER1_CAPT c.1 c.2 s) tx hs
      (by show c.1 % 65536 ≠ 0; omega)
    obtain ⟨s', h1, h3⟩ := ih
      { ISR_TIMER1_CAPT c.1 c.2 s with pulseLength := 0, hadOverflow := 0 }
      (tx ++ TxWord (measurementWord (ISR_TIMER1_CAPT c.1 c.2 s).pulseLength
        (if (ISR_TIMER1_CAPT c.1 c.2 s).pulseIsHigh then 1 else 0)))
      rfl (fun c' hc' => hc c' (List.mem_cons_of_mem c hc'))
    refine ⟨s', h1, ?_⟩
    simp only [captureDrainTrace, run, step, Option.some_bind, hm, h3]
    simp [ISR_TIMER1_CAPT, htm]

theorem scaled_nat_bounds (t : Nat) (h1 : 1 ≤ t) (h2 : t ≤ 65535) :
    max 1 (min 32767 (t * 4096 / 15625)) * 15625 < t * 4096 + 15625
    ∧ t * 4096 < max 1 (min 32767 (t * 4096 / 15625)) * 15625 + 15625 := by
  have hx : t * 4096 / 15625 ≤ 17179 := by omega
  rw [Nat.min_eq_right (by omega)]
  rcases Nat.eq_zero_or_pos (t * 4096 / 15625) with h0 | h0
  · rw [h0]
    have : max 1 0 = 1 := rfl
    rw [this]
    omega
  · rw [Nat.max_eq_right h0]
    omega

theorem scaled_rat_bounds (t : Nat) (h1 : 1 ≤ t) (h2 : t ≤ 65535) :
    |((max 1 (min 32767 (t * 4096 / 15625)) : Nat) : ℚ) - (t : ℚ) * 4096 / 15625| < 1
    ∧ |((max 1 (min 32767 (t * 4096 / 15625)) : Nat) : ℚ) * 15625 / 4096 - (t : ℚ)|
        < 15625 / 4096 := by
  obtain ⟨ha, hb⟩ := scaled_nat_bounds t h1 h2
  generalize max 1 (min 32767 (t * 4096 / 15625)) = d at ha hb
  have ha' : (d : ℚ) * 15625 < (t : ℚ) * 4096 + 15625 := by exact_mod_cast ha
  have hb' : (t : ℚ) * 4096 < (d : ℚ) * 15625 + 15625 := by exact_mod_cast hb
  constructor
  · have e : (d : ℚ) - (t : ℚ) * 4096 / 15625 = ((d : ℚ) * 15625 - (t : ℚ) * 4096) / 15625 := by
      ring
    rw [e, abs_lt]
    constructor
    · rw [lt_div_iff₀ (by norm_num)]; linarith
    · rw [div_lt_iff₀ (by norm_num)]; linarith
  · have e : (d : ℚ) * 15625 / 4096 - (t : ℚ) = ((d : ℚ) * 15625 - (t : ℚ) * 4096) / 4096 := by
      ring
    rw [e, abs_lt]
    constructor
    · rw [lt_div_iff₀ (by norm_num)]; linarith
    · rw [div_lt_iff₀ (by norm_num)]; linarith

theorem TxWord_flatten_length (ws : List Nat) :
    ((ws.map TxWord).flatten).length = 2 * ws.length := by
  induction ws with
  | nil => rfl
  | cons w ws ih =>
    simp only [List.map_cons, List.flatten_cons, List.length_append, ih, List.length_cons]
    simp only [TxWord, List.length_cons, List.length_nil]
    omega

/-- The conversion of lines 240-257 is the zero bump applied to the limited `l`. -/
theorem scaleLength_parts (fosc len : Nat) :
    scaleLength fosc len =
      if limitedLength (scaledLong fosc len) = 0
        then (limitedLength (scaledLong fosc len) + 1) % 65536
        else limitedLength (scaledLong fosc len) := rfl

theorem scaledLong_16MHz (t : Nat) (ht : t ≤ 65535) :
    scaledLong 16000000 t = t * 4096 / 15625 := by
  rw [scaledLong, SCALE_DENOM_16MHz, Nat.mod_eq_of_lt (by omega)]

theorem scaledLong_16MHz_le (t : Nat) (ht : t ≤ 65535) : scaledLong 16000000 t ≤ 17179 := by
  rw [scaledLong_16MHz t ht]
  omega

theorem scaled_le_17179 (t : Nat) (ht : t ≤ 65535) :
    max 1 (min 32767 (t * 4096 / 15625)) ≤ 17179 := by
  have hx : t * 4096 / 15625 ≤ 17179 := by omega
  rw [Nat.min_eq_right (by omega)]
  exact max_le (by decide) hx

theorem limitedLength_16MHz (t : Nat) (ht : t ≤ 65535) :
    limitedLength (scaledLong 16000000 t) = t * 4096 / 15625 := by
  have hle := scaledLong_16MHz_le t ht
  rw [limitedLength, if_neg (by omega), Nat.mod_eq_of_lt (by omega), scaledLong_16MHz t ht]

theorem emitBody_fst (s : Slot) :
    (emitBody s).1 = { s with pulseLength := 0, hadOverflow := 0 } := by
  simp only [emitBody]
  split_ifs <;> rfl

theorem emitBody_snd (s : Slot) : ∃ b0 b1 : Nat, (emitBody s).2 = [b0, b1] := by
  simp only [emitBody, TxWord]
  split_ifs <;> exact ⟨_, _, rfl⟩

/-- With enough fuel a call of `EmitPulseData` returns, and it only appends to the stream. -/
theorem EmitPulseData_total (fuel : Nat) (hf : 2 ≤ fuel) (s : Slot) (tx : List Nat) :
    ∃ (s' : Slot) (b : List Nat), EmitPulseData fuel s tx = some (s', tx ++ b) := by
  rw [EmitPulseData_fuel fuel hf]
  by_cases h : s.pulseLength ≠ 0
  · exact ⟨(emitBody s).1, (emitBody s).2, by simp [h]⟩
  · exact ⟨s, [], by simp [h]⟩

theorem step_total (fuel : Nat) (hf : 2 ≤ fuel) (m : Slot × List Nat) (e : Event) :
    ∃ (s' : Slot) (b : List Nat), step fuel m e = some (s', m.2 ++ b) := by
  cases e with
  | capt icr1 irHigh => exact ⟨ISR_TIMER1_CAPT icr1 irHigh m.1, [], by simp [step]⟩
  | ovf irHigh => exact ⟨ISR_TIMER1_OVF irHigh m.1, [], by simp [step]⟩
  | drain => exact EmitPulseData_total fuel hf m.1 m.2

/-- With enough fuel every trace runs to the end, and the stream only grows. -/
theorem run_total (fuel : Nat) (hf : 2 ≤ fuel) (es : List Event) :
    ∀ m : Slot × List Nat, ∃ (s' : Slot) (b : List Nat),
      run fuel m es = some (s', m.2 ++ b) := by
  induction es with
  | nil => intro m; exact ⟨m.1, [], by simp [run]⟩
  | cons e es ih =>
    intro m
    obtain ⟨s1, b1, h1⟩ := step_total fuel hf m e
    obtain ⟨s2, b2, h2⟩ := ih (s1, m.2 ++ b1)
    exact ⟨s2, b1 ++ b2, by simp only [run, h1, Option.some_bind, h2, List.append_assoc]⟩

theorem run_append (fuel : Nat) (es1 es2 : List Event) :
    ∀ m : Slot × List Nat,
      run fuel m (es1 ++ es2) = (run fuel m es1).bind (fun m' => run fuel m' es2) := by
  induction es1 with
  | nil => intro m; simp [run]
  | cons e es ih =>
    intro m
    rw [List.cons_append]
    simp only [run]
    cases step fuel m e with
    | none => rfl
    | some m1 => simp only [Option.some_bind]; exact ih m1

theorem run_replicate_drain (fuel : Nat) (hf : 2 ≤ fuel) (s : Slot) (tx : List Nat)
    (hlen : s.pulseLength = 0) (n : Nat) :
    run fuel (s, tx) (List.replicate n Event.drain) = some (s, tx) := by
  induction n with
  | zero => rfl
  | succ k ih =>
    simp only [List.replicate_succ, run, step, EmitPulseData_idle fuel hf s tx hlen,
      Option.some_bind, ih]

/-! ## Claims -/

/-- C1: with `hadOverflow = 0` and `pulseLength = rawTicks` in `[1, 65535]`, `EmitPulseData`
returns, clears the slot and writes exactly the two bytes of one word `w`, low byte first.
The low 15 bits of `w` are `max 1 (min 32767 (rawTicks * 4096 / 15625))` and bit 15 of `w`
is set exactly when the level flag is false.  For `rawTicks = 15625` the word is `0x1000`
when the flag is true and `0x9000` when it is false. -/
theorem C1_measurement_word (fuel : Nat) (hf : 2 ≤ fuel) (rawTicks : Nat) (h : Bool)
    (tx : List Nat) (h1 : 1 ≤ rawTicks) (h2 : rawTicks ≤ 65535) :
    (∃ w : Nat,
      EmitPulseData fuel { hadOverflow := 0, pulseIsHigh := h, pulseLength := rawTicks } tx
        = some ({ hadOverflow := 0, pulseIsHigh := h, pulseLength := 0 }, tx ++ TxWord w)
      ∧ TxWord w = [w % 256, w / 256] ∧ w < 65536
      ∧ w % 32768 = max 1 (min 32767 (rawTicks * 4096 / 15625))
      ∧ w.testBit 15 = !h)
    ∧ EmitPulseData fuel { hadOverflow := 0, pulseIsHigh := true, pulseLength := 15625 } tx
        = some ({ hadOverflow := 0, pulseIsHigh := true, pulseLength := 0 }, tx ++ TxWord 0x1000)
    ∧ EmitPulseData fuel { hadOverflow := 0, pulseIsHigh := false, pulseLength := 15625 } tx
        = some ({ hadOverflow := 0, pulseIsHigh := false, pulseLength := 0 }, tx ++ TxWord 0x9000) := by
  refine ⟨⟨measurementWord rawTicks (if h then 1 else 0), ?_, ?_, ?_, ?_, ?_⟩, ?_, ?_⟩
  · exact EmitPulseData_measure fuel hf _ tx rfl (by show rawTicks ≠ 0; omega)
  · exact TxWord_bytes _ (measurementWord_lt rawTicks h h2)
  · exact measurementWord_lt rawTicks h h2
  · exact measurementWord_low rawTicks h h2
  · exact measurementWord_bit15 rawTicks h h2
  · rw [EmitPulseData_measure fuel hf _ tx rfl (by decide)]
    have := measurementWord_eq 15625 true (by decide)
    simp only [if_true] at this
    simp only [if_true, this]
    rfl
  · rw [EmitPulseData_measure fuel hf _ tx rfl (by decide)]
    have := measurementWord_eq 15625 false (by decide)
    simp only [Bool.false_eq_true, if_false] at this
    simp only [Bool.false_eq_true, if_false, this]
    rfl

/-- C1 at `rawTicks = 15625`, level flag false, empty stream: the bytes are `0x00, 0x90`. -/
theorem C1_measurement_word_witness :
    2 ≤ 2 ∧ 1 ≤ 15625 ∧ 15625 ≤ 65535 ∧
    EmitPulseData 2 { hadOverflow := 0, pulseIsHigh := false, pulseLength := 15625 } []
      = some ({ hadOverflow := 0, pulseIsHigh := false, pulseLength := 0 }, [0x00, 0x90]) :=
  ⟨by decide, by decide, by decide,
    (C1_measurement_word 2 (by decide) 15625 false [] (by decide) (by decide)).2.2⟩

/-- C2: after the overflow handler ran with the line HIGH, and any number of capture
interrupts followed, a call of `EmitPulseData` that finds `pulseLength` non-zero writes
exactly the bytes `0xFF, 0xFF`; after the handler ran with the line LOW it writes exactly
`0xFF, 0x7F`. -/
theorem C2_overflow_bytes (fuel : Nat) (hf : 2 ≤ fuel) (s : Slot) (caps : List (Nat × Bool))
    (tx : List Nat) (irHigh : Bool)
    (hp : (caps.foldl (fun s c => ISR_TIMER1_CAPT c.1 c.2 s)
      (ISR_TIMER1_OVF irHigh s)).pulseLength ≠ 0) :
    (EmitPulseData fuel
      (caps.foldl (fun s c => ISR_TIMER1_CAPT c.1 c.2 s) (ISR_TIMER1_OVF irHigh s)) tx).map
        Prod.snd
      = some (tx ++ (if irHigh then [0xff, 0xff] else [0xff, 0x7f])) := by
  have hov : (caps.foldl (fun s c => ISR_TIMER1_CAPT c.1 c.2 s)
      (ISR_TIMER1_OVF irHigh s)).hadOverflow = if irHigh then 0xff else 0x7f := by
    rw [captures_hadOverflow]; rfl
  have hne : (caps.foldl (fun s c => ISR_TIMER1_CAPT c.1 c.2 s)
      (ISR_TIMER1_OVF irHigh s)).hadOverflow ≠ 0 := by
    rw [hov]; cases irHigh <;> decide
  have hlt : (caps.foldl (fun s c => ISR_TIMER1_CAPT c.1 c.2 s)
      (ISR_TIMER1_OVF irHigh s)).hadOverflow < 256 := by
    rw [hov]; cases irHigh <;> decide
  rw [EmitPulseData_overflow fuel hf _ tx hne hlt hp, hov]
  cases irHigh <;> rfl

/-- C2 at the boot state: overflow with the line HIGH, one capture of 100 ticks, drain. -/
theorem C2_overflow_bytes_witness :
    2 ≤ 2 ∧
    (EmitPulseData 2 (ISR_TIMER1_CAPT 100 false (ISR_TIMER1_OVF true boot)) []).map Prod.snd
      = some [0xff, 0xff] :=
  ⟨by decide, C2_overflow_bytes 2 (by decide) boot [(100, false)] [] true (by decide)⟩

/-- C3: for every `rawTicks` in `[0, 65535]` the conversion of lines 240-257 returns a value
in `[1, 32767]`; it returns exactly `32767` whenever the scaled value
`rawTicks * 4096 / SCALE_DENOM fosc` exceeds `32767`; and it returns `1` for `rawTicks = 0`.
Stated for every clock frequency `fosc` with a non-zero denominator; the source compiles
`fosc = 16000000`, where the denominator is `15625`. -/
theorem C3_scale_range (fosc rawTicks : Nat) (_hd : 0 < SCALE_DENOM fosc)
    (ht : rawTicks ≤ 65535) :
    1 ≤ scaleLength fosc rawTicks ∧ scaleLength fosc rawTicks ≤ 32767
    ∧ (32767 < rawTicks * 4096 / SCALE_DENOM fosc → scaleLength fosc rawTicks = 32767)
    ∧ scaleLength fosc 0 = 1
    ∧ SCALE_DENOM 16000000 = 15625 := by
  rw [scaleLength_eq fosc rawTicks ht, scaleLength_eq fosc 0 (by omega)]
  refine ⟨Nat.le_max_left _ _, ?_, ?_, ?_, SCALE_DENOM_16MHz⟩
  · exact max_le (by decide) (Nat.min_le_left _ _)
  · intro hs
    rw [Nat.min_eq_left (Nat.le_of_lt hs)]
    decide
  · simp

/-- C3 at the 3.6864 MHz denominator of the source comment, where `rawTicks = 65535` scales
to `74564` and is limited to `32767`. -/
theorem C3_scale_range_witness :
    0 < SCALE_DENOM 3686400 ∧ 65535 ≤ 65535
    ∧ 32767 < 65535 * 4096 / SCALE_DENOM 3686400
    ∧ scaleLength 3686400 65535 = 32767 :=
  ⟨by decide, by decide, by decide,
    (C3_scale_range 3686400 65535 (by decide) (by decide)).2.2.1 (by decide)⟩

/-- C4: the conversion at the compiled clock is monotone: for `a ≤ b ≤ 65535` (in
particular for `a`, `b` in `[1, 65535]`) the converted length of `a`, after the range limit
and the zero bump, is at most the converted length of `b`. -/
theorem C4_scale_monotone (a b : Nat) (hab : a ≤ b) (hb : b ≤ 65535) :
    scaleLength 16000000 a ≤ scaleLength 16000000 b := by
  rw [scaleLength_16MHz a (by omega), scaleLength_16MHz b hb]
  have h : a * 4096 / 15625 ≤ b * 4096 / 15625 :=
    Nat.div_le_div_right (Nat.mul_le_mul_right 4096 hab)
  exact max_le_max (le_refl 1) (min_le_min (le_refl 32767) h)

/-- C4 at `a = 3`, `b = 4`, on either side of the zero bump. -/
theorem C4_scale_monotone_witness :
    3 ≤ 4 ∧ 4 ≤ 65535 ∧ scaleLength 16000000 3 ≤ scaleLength 16000000 4 :=
  ⟨by decide, by decide, C4_scale_monotone 3 4 (by decide) (by decide)⟩

/-- C5: when `hadOverflow` and `pulseLength` are both non-zero, `EmitPulseData` returns,
clears both, and writes exactly one word, `(hadOverflow << 8) | 0xFF`, whose bytes are
`0xFF` then `hadOverflow`.  The bytes written are the same whatever non-zero tick count
and whatever level flag the slot holds. -/
theorem C5_overflow_word (fuel : Nat) (hf : 2 ≤ fuel) (s : Slot) (tx : List Nat)
    (hov : s.hadOverflow ≠ 0) (hlen : s.pulseLength ≠ 0) (hr : s.hadOverflow < 256) :
    EmitPulseData fuel s tx
      = some ({ s with pulseLength := 0, hadOverflow := 0 },
          tx ++ TxWord ((s.hadOverflow <<< 8) ||| 0xff))
    ∧ TxWord ((s.hadOverflow <<< 8) ||| 0xff) = [0xff, s.hadOverflow]
    ∧ ∀ (len : Nat) (high : Bool), len ≠ 0 →
        (EmitPulseData fuel { s with pulseLength := len, pulseIsHigh := high } tx).map Prod.snd
          = (EmitPulseData fuel s tx).map Prod.snd := by
  have hw : TxWord ((s.hadOverflow <<< 8) ||| 0xff) = [0xff, s.hadOverflow] := by
    have h := TxWord_overflowWord _ hr
    rwa [overflowWord_eq _ hr, ← shl8_or_0xff] at h
  refine ⟨?_, hw, ?_⟩
  · rw [EmitPulseData_overflow fuel hf s tx hov hr hlen, hw]
  · intro len high hl
    rw [EmitPulseData_overflow fuel hf s tx hov hr hlen,
      EmitPulseData_overflow fuel hf _ tx (by exact hov) (by exact hr) (by exact hl)]
    rfl

/-- C5 at marker `0x7f` with 1234 ticks pending. -/
theorem C5_overflow_word_witness :
    2 ≤ 2 ∧ (0x7f : Nat) ≠ 0 ∧ (1234 : Nat) ≠ 0 ∧ (0x7f : Nat) < 256 ∧
    EmitPulseData 2 { hadOverflow := 0x7f, pulseIsHigh := true, pulseLength := 1234 } []
      = some ({ hadOverflow := 0, pulseIsHigh := true, pulseLength := 0 }, [0xff, 0x7f]) :=
  ⟨by decide, by decide, by decide, by decide,
    (C5_overflow_word 2 (by decide)
      { hadOverflow := 0x7f, pulseIsHigh := true, pulseLength := 1234 } []
      (by decide) (by decide) (by decide)).1⟩

/-- C6, as stated, fails: from the boot state, an overflow with the line HIGH, then a
capture of 15625 ticks (flag false, whose measurement word would be `0x9000`), then two
drains.  The whole output is the overflow word `0xFFFF`; the measurement word is not in
it, so the output does not hold the overflow word before the measurement word. -/
theorem C6_counterexample :
    run 2 (boot, [])
        [Event.ovf true, Event.capt 15625 false, Event.drain, Event.drain]
      = some (boot, [0xff, 0xff])
    ∧ overflowWord 0xff = 0xffff ∧ measurementWord 15625 0 = 0x9000
    ∧ ¬ EmitsBefore [0xff, 0xff] (overflowWord 0xff) (measurementWord 15625 0) := by
  refine ⟨by decide, by decide, by decide, ?_⟩
  rintro ⟨pre, mid, post, h⟩
  have hl := congrArg List.length h
  simp [TxWord] at hl
  omega

/-- C6, amended: an overflow recorded, then a capture of `t` ticks in `[1, 65535]`, then a
drain: `EmitPulseData` writes exactly the overflow word (`0xFFFF` if the line was HIGH at the
overflow, `0x7FFF` if LOW) and leaves `pulseLength = 0` and `hadOverflow = 0`, so the ticks
of that capture are dropped and a further drain writes nothing.  The word of the next
capture, once drained, follows the overflow word. -/
theorem C6_overflow_precedes (fuel : Nat) (hf : 2 ≤ fuel) (s : Slot) (tx : List Nat)
    (irHigh : Bool) (t : Nat) (h : Bool) (ht1 : 1 ≤ t) (ht2 : t ≤ 65535) :
    run fuel (s, tx) [Event.ovf irHigh, Event.capt t h, Event.drain]
      = some ({ hadOverflow := 0, pulseIsHigh := h, pulseLength := 0 },
          tx ++ TxWord (if irHigh then 0xffff else 0x7fff))
    ∧ run fuel (s, tx) [Event.ovf irHigh, Event.capt t h, Event.drain, Event.drain]
      = some ({ hadOverflow := 0, pulseIsHigh := h, pulseLength := 0 },
          tx ++ TxWord (if irHigh then 0xffff else 0x7fff))
    ∧ ∀ (t2 : Nat) (h2 : Bool), 1 ≤ t2 → t2 ≤ 65535 →
        run fuel (s, tx)
            [Event.ovf irHigh, Event.capt t h, Event.drain, Event.capt t2 h2, Event.drain]
          = some ({ hadOverflow := 0, pulseIsHigh := h2, pulseLength := 0 },
              tx ++ TxWord (if irHigh then 0xffff else 0x7fff)
                ++ TxWord (measurementWord t2 (if h2 then 1 else 0))) := by
  have htm : t % 65536 = t := Nat.mod_eq_of_lt (by omega)
  have hd : EmitPulseData fuel (ISR_TIMER1_CAPT t h (ISR_TIMER1_OVF irHigh s)) tx
      = some ({ hadOverflow := 0, pulseIsHigh := h, pulseLength := 0 },
          tx ++ TxWord (if irHigh then 0xffff else 0x7fff)) := by
    rw [EmitPulseData_overflow fuel hf _ tx
      (by cases irHigh <;> simp [ISR_TIMER1_CAPT, ISR_TIMER1_OVF])
      (by cases irHigh <;> simp [ISR_TIMER1_CAPT, ISR_TIMER1_OVF])
      (by show t % 65536 ≠ 0; omega)]
    cases irHigh <;> rfl
  refine ⟨?_, ?_, ?_⟩
  · simp only [run, step, Option.some_bind, hd]
  · have hi := EmitPulseData_idle fuel hf
      { hadOverflow := 0, pulseIsHigh := h, pulseLength := 0 }
      (tx ++ TxWord (if irHigh then 0xffff else 0x7fff)) rfl
    simp only [run, step, Option.some_bind, hd, hi]
  · intro t2 h2 ht3 ht4
    have htm2 : t2 % 65536 = t2 := Nat.mod_eq_of_lt (by omega)
    have hm := EmitPulseData_measure fuel hf
      (ISR_TIMER1_CAPT t2 h2 { hadOverflow := 0, pulseIsHigh := h, pulseLength := 0 })
      (tx ++ TxWord (if irHigh then 0xffff else 0x7fff)) rfl
      (by show t2 % 65536 ≠ 0; omega)
    simp only [run, step, Option.some_bind, hd, hm]
    simp only [ISR_TIMER1_CAPT, htm2]

/-- C6 amended, at the boot state: overflow HIGH, capture of 15625 ticks, drain. -/
theorem C6_overflow_precedes_witness :
    2 ≤ 2 ∧ 1 ≤ 15625 ∧ 15625 ≤ 65535 ∧
    run 2 (boot, []) [Event.ovf true, Event.capt 15625 false, Event.drain]
      = some ({ hadOverflow := 0, pulseIsHigh := false, pulseLength := 0 }, [0xff, 0xff]) :=
  ⟨by decide, by decide, by decide,
    (C6_overflow_precedes 2 (by decide) boot [] true 15625 false (by decide) (by decide)).1⟩

/-- C7, as stated, fails: from the boot state, two overflows with the line HIGH and no
capture, then a drain.  `pulseLength` is still zero, the loop body never runs, and nothing
is written; the marker `0xFF` stays in the slot. -/
theorem C7_counterexample :
    run 2 (boot, []) [Event.ovf true, Event.ovf true, Event.drain]
      = some ({ hadOverflow := 0xff, pulseIsHigh := false, pulseLength := 0 }, [])
    ∧ TxWord 0xffff = [0xff, 0xff]
    ∧ (run 2 (boot, []) [Event.ovf true, Event.ovf true, Event.drain]).map Prod.snd
      ≠ some (TxWord 0xffff) := by
  refine ⟨by decide, by decide, by decide⟩

/-- C7, amended: from the boot state, two overflows with the line HIGH and no capture: a
drain writes nothing and leaves the marker pending.  Once a transition with `t` ticks in
`[1, 65535]` has been captured, the drain writes exactly one word, `0xFFFF`, whether or not
the earlier empty drain took place. -/
theorem C7_two_rollovers (fuel : Nat) (hf : 2 ≤ fuel) (t : Nat) (h : Bool)
    (ht1 : 1 ≤ t) (ht2 : t ≤ 65535) :
    run fuel (boot, []) [Event.ovf true, Event.ovf true, Event.drain]
      = some ({ hadOverflow := 0xff, pulseIsHigh := false, pulseLength := 0 }, [])
    ∧ run fuel (boot, []) [Event.ovf true, Event.ovf true, Event.capt t h, Event.drain]
      = some ({ hadOverflow := 0, pulseIsHigh := h, pulseLength := 0 }, TxWord 0xffff)
    ∧ run fuel (boot, [])
        [Event.ovf true, Event.ovf true, Event.drain, Event.capt t h, Event.drain]
      = some ({ hadOverflow := 0, pulseIsHigh := h, pulseLength := 0 }, TxWord 0xffff) := by
  have hi := EmitPulseData_idle fuel hf
    (ISR_TIMER1_OVF true (ISR_TIMER1_OVF true boot)) [] rfl
  have ho := EmitPulseData_overflow fuel hf
    (ISR_TIMER1_CAPT t h (ISR_TIMER1_OVF true (ISR_TIMER1_OVF true boot))) []
    (by show (0xff : Nat) ≠ 0; decide) (by show (0xff : Nat) < 256; decide)
    (by show t % 65536 ≠ 0; omega)
  refine ⟨?_, ?_, ?_⟩
  · simp only [run, step, Option.some_bind, hi]
    rfl
  · simp only [run, step, Option.some_bind, ho]
    rfl
  · simp only [run, step, Option.some_bind, hi, ho]
    rfl

/-- C7 amended, with a capture of 100 ticks before the drain. -/
theorem C7_two_rollovers_witness :
    2 ≤ 2 ∧ 1 ≤ 100 ∧ 100 ≤ 65535 ∧
    run 2 (boot, []) [Event.ovf true, Event.ovf true, Event.capt 100 true, Event.drain]
      = some ({ hadOverflow := 0, pulseIsHigh := true, pulseLength := 0 }, [0xff, 0xff]) :=
  ⟨by decide, by decide, by decide,
    (C7_two_rollovers 2 (by decide) 100 true (by decide) (by decide)).2.1⟩

/-- C8: the overflow handler applied twice with the same line level leaves the slot as one
application does; and after `n ≥ 1` overflows in a row at that level, followed by the
capture of `t` ticks in `[1, 65535]`, `EmitPulseData` returns with the slot cleared and
writes exactly one overflow word (two bytes: `0xFF`, then `0xFF` for HIGH or `0x7F` for
LOW), whatever `n` is. -/
theorem C8_overflow_idempotent (fuel : Nat) (hf : 2 ≤ fuel) (s : Slot) (tx : List Nat)
    (irHigh : Bool) (n : Nat) (hn : 1 ≤ n) (t : Nat) (h : Bool)
    (ht1 : 1 ≤ t) (ht2 : t ≤ 65535) :
    ISR_TIMER1_OVF irHigh (ISR_TIMER1_OVF irHigh s) = ISR_TIMER1_OVF irHigh s
    ∧ (ISR_TIMER1_OVF irHigh)^[n] s = ISR_TIMER1_OVF irHigh s
    ∧ EmitPulseData fuel (ISR_TIMER1_CAPT t h ((ISR_TIMER1_OVF irHigh)^[n] s)) tx
      = some ({ hadOverflow := 0, pulseIsHigh := h, pulseLength := 0 },
          tx ++ [0xff, if irHigh then 0xff else 0x7f]) := by
  obtain ⟨k, rfl⟩ : ∃ k, n = k + 1 := ⟨n - 1, by omega⟩
  refine ⟨rfl, ISR_TIMER1_OVF_iterate irHigh s k, ?_⟩
  rw [ISR_TIMER1_OVF_iterate irHigh s k,
    EmitPulseData_overflow fuel hf _ tx
      (by cases irHigh <;> simp [ISR_TIMER1_CAPT, ISR_TIMER1_OVF])
      (by cases irHigh <;> simp [ISR_TIMER1_CAPT, ISR_TIMER1_OVF])
      (by show t % 65536 ≠ 0; omega)]
  rfl

/-- C8 with three overflows at LOW, then a capture of 500 ticks. -/
theorem C8_overflow_idempotent_witness :
    2 ≤ 2 ∧ 1 ≤ 3 ∧ 1 ≤ 500 ∧ 500 ≤ 65535 ∧
    EmitPulseData 2 (ISR_TIMER1_CAPT 500 true ((ISR_TIMER1_OVF false)^[3] boot)) []
      = some ({ hadOverflow := 0, pulseIsHigh := true, pulseLength := 0 }, [0xff, 0x7f]) :=
  ⟨by decide, by decide, by decide, by decide,
    (C8_overflow_idempotent 2 (by decide) boot [] false 3 (by decide) 500 true
      (by decide) (by decide)).2.2⟩

/-- C9: captures with tick counts in `[1, 65535]`, no overflow marker set, each capture
followed by a drain: the run returns and the bytes written are those of exactly `n` words
(`2 * n` bytes), one per capture and in capture order, each word `w` sent as the byte
`w mod 256` followed by the byte `w div 256`.  The low 15 bits `s` of the word of a capture
of `t` ticks are `max 1 (min 32767 (t * 4096 / 15625))` and satisfy
`|s - t * 4096 / 15625| < 1` and, equivalently, `|s * 15625 / 4096 - t| < 15625 / 4096`, in
rational arithmetic; bit 15 of the word is set exactly when the flag of the capture is
false. -/
theorem C9_round_trip (fuel : Nat) (hf : 2 ≤ fuel) (s : Slot) (tx : List Nat)
    (caps : List (Nat × Bool)) (hs : s.hadOverflow = 0)
    (hc : ∀ c ∈ caps, 1 ≤ c.1 ∧ c.1 ≤ 65535) :
    ∃ (s' : Slot) (words : List Nat),
      run fuel (s, tx) (captureDrainTrace caps) = some (s', tx ++ (words.map TxWord).flatten)
      ∧ run fuel (s, tx) (captureDrainTrace caps)
          = some (s', tx ++ (words.map (fun w => [w % 256, w / 256])).flatten)
      ∧ words.length = caps.length
      ∧ ((words.map (fun w => [w % 256, w / 256])).flatten).length = 2 * caps.length
      ∧ ((words.map TxWord).flatten).length = 2 * caps.length
      ∧ List.Forall₂ (fun c w => w < 65536
          ∧ w % 32768 = max 1 (min 32767 (c.1 * 4096 / 15625))
          ∧ w.testBit 15 = !c.2
          ∧ |((w % 32768 : Nat) : ℚ) - (c.1 : ℚ) * 4096 / 15625| < 1
          ∧ |((w % 32768 : Nat) : ℚ) * 15625 / 4096 - (c.1 : ℚ)| < 15625 / 4096)
        caps words := by
  obtain ⟨s', _, hrun⟩ := run_captureDrainTrace fuel hf caps s tx hs hc
  have hbytes : (caps.map (fun c => measurementWord c.1 (if c.2 then 1 else 0))).map TxWord
      = (caps.map (fun c => measurementWord c.1 (if c.2 then 1 else 0))).map
          (fun w => [w % 256, w / 256]) := by
    rw [List.map_map, List.map_map]
    apply List.map_congr_left
    intro c hcm
    exact TxWord_bytes _ (measurementWord_lt c.1 c.2 (hc c hcm).2)
  refine ⟨s', caps.map (fun c => measurementWord c.1 (if c.2 then 1 else 0)), hrun,
    ?_, List.length_map _ _, ?_, ?_, ?_⟩
  · rw [← hbytes]
    exact hrun
  · rw [← hbytes, TxWord_flatten_length, List.length_map]
  · rw [TxWord_flatten_length, List.length_map]
  · rw [List.forall₂_map_right_iff, List.forall₂_same]
    intro c hcm
    obtain ⟨h1, h2⟩ := hc c hcm
    refine ⟨measurementWord_lt c.1 c.2 h2, measurementWord_low c.1 c.2 h2,
      measurementWord_bit15 c.1 c.2 h2, ?_⟩
    rw [measurementWord_low c.1 c.2 h2]
    exact scaled_rat_bounds c.1 h1 h2

/-- C9 on the captures 1, 15625 and 65535 ticks from the boot state: the words are
`0x0001`, `0x9000` and `0x431B`, sent as the bytes `01 00 00 90 1B 43`. -/
theorem C9_round_trip_witness :
    2 ≤ 2 ∧ boot.hadOverflow = 0
    ∧ (∀ c ∈ [((1 : Nat), true), (15625, false), (65535, true)], 1 ≤ c.1 ∧ c.1 ≤ 65535)
    ∧ run 2 (boot, []) (captureDrainTrace [(1, true), (15625, false), (65535, true)])
        = some ({ hadOverflow := 0, pulseIsHigh := true, pulseLength := 0 },
            [0x01, 0x00, 0x00, 0x90, 0x1b, 0x43])
    ∧ ∃ (s' : Slot) (words : List Nat),
      run 2 (boot, []) (captureDrainTrace [(1, true), (15625, false), (65535, true)])
        = some (s', [] ++ (words.map TxWord).flatten)
      ∧ run 2 (boot, []) (captureDrainTrace [(1, true), (15625, false), (65535, true)])
          = some (s', [] ++ (words.map (fun w => [w % 256, w / 256])).flatten)
      ∧ words.length = [((1 : Nat), true), (15625, false), (65535, true)].length
      ∧ ((words.map (fun w => [w % 256, w / 256])).flatten).length
          = 2 * [((1 : Nat), true), (15625, false), (65535, true)].length
      ∧ ((words.map TxWord).flatten).length
          = 2 * [((1 : Nat), true), (15625, false), (65535, true)].length
      ∧ List.Forall₂ (fun c w => w < 65536
          ∧ w % 32768 = max 1 (min 32767 (c.1 * 4096 / 15625))
          ∧ w.testBit 15 = !c.2
          ∧ |((w % 32768 : Nat) : ℚ) - (c.1 : ℚ) * 4096 / 15625| < 1
          ∧ |((w % 32768 : Nat) : ℚ) * 15625 / 4096 - (c.1 : ℚ)| < 15625 / 4096)
        [((1 : Nat), true), (15625, false), (65535, true)] words :=
  ⟨by decide, rfl, by decide, by decide,
    C9_round_trip 2 (by decide) boot [] [(1, true), (15625, false), (65535, true)] rfl
      (by decide)⟩

/-- C10, as stated, fails: a capture of 15625 ticks at which the handler samples the line
LOW, so the line was HIGH during the measured interval.  The stored flag is `false` (the
level after the transition, not the level of the interval), and the word written is
`0x9000`, with bit 15 set although the interval was HIGH. -/
theorem C10_counterexample :
    (ISR_TIMER1_CAPT 15625 false boot).pulseIsHigh = false
    ∧ EmitPulseData 2 (ISR_TIMER1_CAPT 15625 false boot) [] = some (boot, TxWord 0x9000)
    ∧ Nat.testBit 0x9000 15 = true := by
  refine ⟨rfl, by decide, by decide⟩

/-- C10, amended: a capture of `t` ticks in `[1, 65535]` with no overflow marker set, the
line having held `levelDuring` over the measured interval and the handler sampling the
opposite level just after the transition.  The flag stored is the sampled level, the
opposite of `levelDuring`; the drain writes one word whose bit 15 is 1 if the line was
HIGH during the interval and 0 if it was LOW. -/
theorem C10_level_bit (fuel : Nat) (hf : 2 ≤ fuel) (s : Slot) (tx : List Nat) (t : Nat)
    (levelDuring : Bool) (hs : s.hadOverflow = 0) (ht1 : 1 ≤ t) (ht2 : t ≤ 65535) :
    (ISR_TIMER1_CAPT t (!levelDuring) s).pulseIsHigh = !levelDuring
    ∧ ∃ w : Nat,
        EmitPulseData fuel (ISR_TIMER1_CAPT t (!levelDuring) s) tx
          = some ({ hadOverflow := 0, pulseIsHigh := !levelDuring, pulseLength := 0 },
              tx ++ TxWord w)
        ∧ w < 65536
        ∧ w.testBit 15 = levelDuring
        ∧ TxWord w = [w % 256, w / 256] := by
  have htm : t % 65536 = t := Nat.mod_eq_of_lt (by omega)
  refine ⟨rfl, measurementWord t (if (!levelDuring) then 1 else 0), ?_,
    measurementWord_lt t (!levelDuring) ht2, ?_,
    TxWord_bytes _ (measurementWord_lt t (!levelDuring) ht2)⟩
  · rw [EmitPulseData_measure fuel hf (ISR_TIMER1_CAPT t (!levelDuring) s) tx hs
      (by show t % 65536 ≠ 0; omega)]
    simp only [ISR_TIMER1_CAPT, htm]
  · rw [measurementWord_bit15 t (!levelDuring) ht2, Bool.not_not]

/-- C10 amended, at 15625 ticks with the line HIGH during the interval: the bytes written
are `00 90`. -/
theorem C10_level_bit_witness :
    2 ≤ 2 ∧ boot.hadOverflow = 0 ∧ 1 ≤ 15625 ∧ 15625 ≤ 65535
    ∧ EmitPulseData 2 (ISR_TIMER1_CAPT 15625 (!true) boot) []
        = some ({ hadOverflow := 0, pulseIsHigh := false, pulseLength := 0 }, [0x00, 0x90])
    ∧ (ISR_TIMER1_CAPT 15625 (!true) boot).pulseIsHigh = !true
    ∧ ∃ w : Nat,
        EmitPulseData 2 (ISR_TIMER1_CAPT 15625 (!true) boot) []
          = some ({ hadOverflow := 0, pulseIsHigh := !true, pulseLength := 0 },
              [] ++ TxWord w)
        ∧ w < 65536
        ∧ w.testBit 15 = true
        ∧ TxWord w = [w % 256, w / 256] :=
  ⟨by decide, rfl, by decide, by decide, by decide,
    C10_level_bit 2 (by decide) boot [] 15625 true rfl (by decide) (by decide)⟩

/-- C11: for every `rawTicks` in `[1, 65535]` and every level flag, the word written by
`EmitPulseData` with no overflow marker set is neither `0xFFFF` nor `0x7FFF`, and its two
bytes differ from the bytes of either; and the overflow branch, on a marker written by the
overflow handler, sends `0xFFFF` (line HIGH) or `0x7FFF` (line LOW) and nothing else. -/
theorem C11_words_distinct (fuel : Nat) (hf : 2 ≤ fuel) (rawTicks : Nat) (h : Bool)
    (tx : List Nat) (h1 : 1 ≤ rawTicks) (h2 : rawTicks ≤ 65535) :
    EmitPulseData fuel { hadOverflow := 0, pulseIsHigh := h, pulseLength := rawTicks } tx
      = some ({ hadOverflow := 0, pulseIsHigh := h, pulseLength := 0 },
          tx ++ TxWord (measurementWord rawTicks (if h then 1 else 0)))
    ∧ measurementWord rawTicks (if h then 1 else 0) ≠ 0xffff
    ∧ measurementWord rawTicks (if h then 1 else 0) ≠ 0x7fff
    ∧ TxWord (measurementWord rawTicks (if h then 1 else 0)) ≠ [0xff, 0xff]
    ∧ TxWord (measurementWord rawTicks (if h then 1 else 0)) ≠ [0xff, 0x7f]
    ∧ ∀ (irHigh : Bool) (s : Slot),
        overflowWord (ISR_TIMER1_OVF irHigh s).hadOverflow
          = if irHigh then 0xffff else 0x7fff := by
  have hlt := measurementWord_lt rawTicks h h2
  have hle := scaled_le_17179 rawTicks h2
  have hw : measurementWord rawTicks (if h then 1 else 0) ≤ 17179
      ∨ (32769 ≤ measurementWord rawTicks (if h then 1 else 0)
        ∧ measurementWord rawTicks (if h then 1 else 0) ≤ 49947) := by
    rw [measurementWord_eq rawTicks h h2]
    have hpos : 1 ≤ max 1 (min 32767 (rawTicks * 4096 / 15625)) := Nat.le_max_left _ _
    cases h
    · right
      simp only [Bool.false_eq_true, if_false]
      omega
    · left
      simp only [if_true]
      exact hle
  refine ⟨?_, ?_, ?_, ?_, ?_, ?_⟩
  · exact EmitPulseData_measure fuel hf _ tx rfl (by show rawTicks ≠ 0; omega)
  · omega
  · omega
  · rw [TxWord_bytes _ hlt]
    intro hb
    have h3 : measurementWord rawTicks (if h then 1 else 0) / 256 = 0xff := by
      simpa using (List.cons.inj (List.cons.inj hb).2).1
    omega
  · rw [TxWord_bytes _ hlt]
    intro hb
    have h3 : measurementWord rawTicks (if h then 1 else 0) / 256 = 0x7f := by
      simpa using (List.cons.inj (List.cons.inj hb).2).1
    omega
  · intro irHigh s
    cases irHigh
    · show overflowWord 0x7f = 0x7fff
      decide
    · show overflowWord 0xff = 0xffff
      decide

/-- C11 at the largest tick count, flag false: the word is `0xC31B`. -/
theorem C11_words_distinct_witness :
    2 ≤ 2 ∧ 1 ≤ 65535 ∧ 65535 ≤ 65535
    ∧ measurementWord 65535 (if false then 1 else 0) ≠ 0xffff
    ∧ measurementWord 65535 (if false then 1 else 0) ≠ 0x7fff :=
  ⟨by decide, by decide, by decide,
    (C11_words_distinct 2 (by decide) 65535 false [] (by decide) (by decide)).2.1,
    (C11_words_distinct 2 (by decide) 65535 false [] (by decide) (by decide)).2.2.1⟩

/-- C12: for every 16-bit word `t`, `TxWord` writes exactly two bytes, first `t mod 256`
then `t div 256`, each below 256, and the pair decodes back to `t`. -/
theorem C12_TxWord_little_endian (t : Nat) (ht : t < 65536) :
    ∃ b0 b1 : Nat, TxWord t = [b0, b1] ∧ b0 = t % 256 ∧ b1 = t / 256
      ∧ b0 < 256 ∧ b1 < 256 ∧ b0 + 256 * b1 = t := by
  refine ⟨t % 256, t / 256, TxWord_bytes t ht, rfl, rfl, ?_, ?_, ?_⟩ <;> omega

/-- C12 at `t = 0x9000`: the bytes are `0x00, 0x90`. -/
theorem C12_TxWord_little_endian_witness :
    0x9000 < 65536 ∧
    ∃ b0 b1 : Nat, TxWord 0x9000 = [b0, b1] ∧ b0 = 0x9000 % 256 ∧ b1 = 0x9000 / 256
      ∧ b0 < 256 ∧ b1 < 256 ∧ b0 + 256 * b1 = 0x9000 :=
  ⟨by decide, C12_TxWord_little_endian 0x9000 (by decide)⟩

/-- C14, as stated, fails, in two ways.  A capture of 100 ticks (flag true, word `0x001A`)
overwritten by a second capture before the drain is never sent: the output is the second
word only.  A capture of 100 ticks that finds an overflow marker set is never sent either:
the output is the overflow word only. -/
theorem C14_counterexample :
    run 2 (boot, []) [Event.capt 100 true, Event.capt 15625 false, Event.drain]
      = some (boot, [0x00, 0x90])
    ∧ ¬ Emits [0x00, 0x90] (measurementWord 100 1)
    ∧ run 2 (boot, []) [Event.ovf false, Event.capt 100 true, Event.drain]
      = some ({ hadOverflow := 0, pulseIsHigh := true, pulseLength := 0 }, [0xff, 0x7f])
    ∧ ¬ Emits [0xff, 0x7f] (measurementWord 100 1) := by
  have hw : TxWord (measurementWord 100 1) = [26, 0] := by decide
  refine ⟨by decide, ?_, by decide, ?_⟩
  · rintro ⟨pre, post, h⟩
    have hm : (26 : Nat) ∈ pre ++ TxWord (measurementWord 100 1) ++ post := by
      rw [hw]; simp
    rw [← h] at hm
    revert hm
    decide
  · rintro ⟨pre, post, h⟩
    have hm : (26 : Nat) ∈ pre ++ TxWord (measurementWord 100 1) ++ post := by
      rw [hw]; simp
    rw [← h] at hm
    revert hm
    decide

/-- C14, amended: in any finite trace of captures, rollovers and drains, a capture of `t`
ticks in `[1, 65535]` that arrives with no overflow marker set and is followed directly by
a drain has its measurement word in the output of the whole trace, which runs to the end. -/
theorem C14_capture_emitted (fuel : Nat) (hf : 2 ≤ fuel) (m : Slot × List Nat)
    (pre post : List Event) (s1 : Slot) (tx1 : List Nat) (t : Nat) (h : Bool)
    (hpre : run fuel m pre = some (s1, tx1)) (hov : s1.hadOverflow = 0)
    (ht1 : 1 ≤ t) (ht2 : t ≤ 65535) :
    ∃ (s' : Slot) (out : List Nat),
      run fuel m (pre ++ [Event.capt t h, Event.drain] ++ post) = some (s', out)
      ∧ Emits out (measurementWord t (if h then 1 else 0)) := by
  have htm : t % 65536 = t := Nat.mod_eq_of_lt (by omega)
  have hm := EmitPulseData_measure fuel hf (ISR_TIMER1_CAPT t h s1) tx1 hov
    (by show t % 65536 ≠ 0; omega)
  obtain ⟨s2, b, h2⟩ := run_total fuel hf post
    ({ ISR_TIMER1_CAPT t h s1 with pulseLength := 0, hadOverflow := 0 },
      tx1 ++ TxWord (measurementWord (ISR_TIMER1_CAPT t h s1).pulseLength
        (if (ISR_TIMER1_CAPT t h s1).pulseIsHigh then 1 else 0)))
  refine ⟨s2, _, ?_, ⟨tx1, b, rfl⟩⟩
  rw [run_append, run_append, hpre]
  simp only [Option.some_bind, run, step, hm, h2]
  simp only [ISR_TIMER1_CAPT, htm]

/-- C14 amended, on a trace where an overflow word is drained first. -/
theorem C14_capture_emitted_witness :
    2 ≤ 2
    ∧ run 2 (boot, []) [Event.ovf true, Event.capt 5 true, Event.drain]
        = some ({ hadOverflow := 0, pulseIsHigh := true, pulseLength := 0 }, [0xff, 0xff])
    ∧ 1 ≤ 15625 ∧ 15625 ≤ 65535
    ∧ ∃ (s' : Slot) (out : List Nat),
      run 2 (boot, []) ([Event.ovf true, Event.capt 5 true, Event.drain]
          ++ [Event.capt 15625 false, Event.drain] ++ [Event.drain]) = some (s', out)
      ∧ Emits out (measurementWord 15625 (if false then 1 else 0)) :=
  ⟨by decide, by decide, by decide, by decide,
    C14_capture_emitted 2 (by decide) (boot, [])
      [Event.ovf true, Event.capt 5 true, Event.drain] [Event.drain]
      { hadOverflow := 0, pulseIsHigh := true, pulseLength := 0 } [0xff, 0xff] 15625 false
      (by decide) rfl (by decide) (by decide)⟩

/-- C15: the capture handler leaves `hadOverflow` as it was, set or not; the overflow
handler leaves `pulseLength` and `pulseIsHigh` as they were. -/
theorem C15_disjoint_fields (s : Slot) (icr1 : Nat) (irHigh : Bool) :
    (ISR_TIMER1_CAPT icr1 irHigh s).hadOverflow = s.hadOverflow
    ∧ (ISR_TIMER1_OVF irHigh s).pulseLength = s.pulseLength
    ∧ (ISR_TIMER1_OVF irHigh s).pulseIsHigh = s.pulseIsHigh :=
  ⟨rfl, rfl, rfl⟩

/-- C17: with no interrupt taken while it runs, `EmitPulseData` returns for every slot.  If
`pulseLength ≠ 0` on entry, the loop condition is evaluated exactly twice (one evaluation
is not enough, two are), so the body runs once; exactly two bytes are written; and the slot
is left with `pulseLength = 0` and `hadOverflow = 0`, the flag unchanged. -/
theorem C17_drain_terminates (fuel : Nat) (hf : 2 ≤ fuel) (s : Slot) (tx : List Nat) :
    (∃ r, EmitPulseData fuel s tx = some r)
    ∧ (s.pulseLength ≠ 0 →
        EmitPulseData 1 s tx = none
        ∧ ∃ b0 b1 : Nat, EmitPulseData fuel s tx
            = some ({ s with pulseLength := 0, hadOverflow := 0 }, tx ++ [b0, b1])) := by
  constructor
  · obtain ⟨s', b, h⟩ := EmitPulseData_total fuel hf s tx
    exact ⟨_, h⟩
  · intro hlen
    constructor
    · simp [EmitPulseData, hlen]
    · obtain ⟨b0, b1, hb⟩ := emitBody_snd s
      refine ⟨b0, b1, ?_⟩
      rw [EmitPulseData_fuel fuel hf, emitBody_fst, hb]
      simp [hlen]

/-- C17 on a slot with 1234 ticks and the marker `0x7f` pending. -/
theorem C17_drain_terminates_witness :
    2 ≤ 2 ∧ (1234 : Nat) ≠ 0
    ∧ EmitPulseData 1 { hadOverflow := 0x7f, pulseIsHigh := true, pulseLength := 1234 } []
        = none
    ∧ ∃ b0 b1 : Nat,
        EmitPulseData 2 { hadOverflow := 0x7f, pulseIsHigh := true, pulseLength := 1234 } []
          = some ({ hadOverflow := 0, pulseIsHigh := true, pulseLength := 0 },
              [] ++ [b0, b1]) :=
  ⟨by decide, by decide,
    (C17_drain_terminates 2 (by decide)
      { hadOverflow := 0x7f, pulseIsHigh := true, pulseLength := 1234 } []).2 (by decide)⟩

/-- C18: a call of `EmitPulseData` on a slot with `pulseLength = 0` returns having written
nothing and changed no field, whatever `hadOverflow` holds.  So after the overflow handler
has set the marker, any number of drains leave it set and unsent; the drain that follows a
capture of `t` ticks in `[1, 65535]` then sends it. -/
theorem C18_empty_drain_noop (fuel : Nat) (hf : 2 ≤ fuel) (s : Slot) (tx : List Nat)
    (hlen : s.pulseLength = 0) :
    EmitPulseData fuel s tx = some (s, tx)
    ∧ ∀ (irHigh : Bool) (n : Nat),
        run fuel (ISR_TIMER1_OVF irHigh s, tx) (List.replicate n Event.drain)
          = some (ISR_TIMER1_OVF irHigh s, tx)
        ∧ (ISR_TIMER1_OVF irHigh s).hadOverflow ≠ 0
        ∧ ∀ (t : Nat) (h : Bool), 1 ≤ t → t ≤ 65535 →
            run fuel (ISR_TIMER1_OVF irHigh s, tx)
                (List.replicate n Event.drain ++ [Event.capt t h, Event.drain])
              = some ({ hadOverflow := 0, pulseIsHigh := h, pulseLength := 0 },
                  tx ++ [0xff, if irHigh then 0xff else 0x7f]) := by
  refine ⟨EmitPulseData_idle fuel hf s tx hlen, ?_⟩
  intro irHigh n
  have hrep := run_replicate_drain fuel hf (ISR_TIMER1_OVF irHigh s) tx hlen n
  refine ⟨hrep, ?_, ?_⟩
  · cases irHigh
    · show (0x7f : Nat) ≠ 0
      decide
    · show (0xff : Nat) ≠ 0
      decide
  · intro t h ht1 ht2
    have ho := EmitPulseData_overflow fuel hf (ISR_TIMER1_CAPT t h (ISR_TIMER1_OVF irHigh s)) tx
      (by cases irHigh <;> simp [ISR_TIMER1_CAPT, ISR_TIMER1_OVF])
      (by cases irHigh <;> simp [ISR_TIMER1_CAPT, ISR_TIMER1_OVF])
      (by show t % 65536 ≠ 0; omega)
    rw [run_append, hrep]
    simp only [Option.some_bind, run, step, ho]
    rfl

/-- C18 on a slot that holds the marker `0xff` and no ticks. -/
theorem C18_empty_drain_noop_witness :
    2 ≤ 2
    ∧ ({ hadOverflow := 0xff, pulseIsHigh := true, pulseLength := 0 } : Slot).pulseLength = 0
    ∧ EmitPulseData 2 { hadOverflow := 0xff, pulseIsHigh := true, pulseLength := 0 } [7]
        = some ({ hadOverflow := 0xff, pulseIsHigh := true, pulseLength := 0 }, [7]) :=
  ⟨by decide, rfl,
    (C18_empty_drain_noop 2 (by decide)
      { hadOverflow := 0xff, pulseIsHigh := true, pulseLength := 0 } [7] rfl).1⟩

/-- C19: at the compiled `SCALE_DENOM( 16000000 )`, for every 16-bit `rawTicks` the value
`l` of line 243 is at most `17179`, below `0x7FFF`, so the test `l > 0x7fff` of line 245 is
false and the limit leaves `l` as it is; the low 15 bits of the measurement word are at
most `17179` for either level flag. -/
theorem C19_saturation_unreachable (rawTicks : Nat) (h : Bool) (ht : rawTicks ≤ 65535) :
    scaledLong 16000000 rawTicks ≤ 17179
    ∧ (17179 : Nat) < 0x7fff
    ∧ ¬ (scaledLong 16000000 rawTicks > 0x7fff)
    ∧ limitedLength (scaledLong 16000000 rawTicks) = scaledLong 16000000 rawTicks
    ∧ measurementWord rawTicks (if h then 1 else 0) % 32768 ≤ 17179 := by
  have hle := scaledLong_16MHz_le rawTicks ht
  refine ⟨hle, by decide, by omega, ?_, ?_⟩
  · rw [limitedLength_16MHz rawTicks ht, scaledLong_16MHz rawTicks ht]
  · rw [measurementWord_low rawTicks h ht]
    exact scaled_le_17179 rawTicks ht

/-- C19 at `rawTicks = 65535`, where the bound `17179` is reached. -/
theorem C19_saturation_unreachable_witness :
    65535 ≤ 65535 ∧ scaledLong 16000000 65535 ≤ 17179
    ∧ measurementWord 65535 (if true then 1 else 0) % 32768 ≤ 17179 :=
  ⟨by decide, (C19_saturation_unreachable 65535 true (by decide)).1,
    (C19_saturation_unreachable 65535 true (by decide)).2.2.2.2⟩

/-- C20: for `rawTicks` in `[1, 65535]` at the compiled clock, the length tested by the zero
bump of line 254 is `0` exactly when `rawTicks` is 1, 2 or 3, and the converted length is
then `1`; for every `rawTicks ≥ 4` the converted length, and the low 15 bits of the word
written, equal `rawTicks * 4096 / 15625`. -/
theorem C20_zero_bump (rawTicks : Nat) (h1 : 1 ≤ rawTicks) (h2 : rawTicks ≤ 65535) :
    (limitedLength (scaledLong 16000000 rawTicks) = 0 ↔ rawTicks ≤ 3)
    ∧ (rawTicks ≤ 3 → scaleLength 16000000 rawTicks = 1)
    ∧ (4 ≤ rawTicks →
        limitedLength (scaledLong 16000000 rawTicks) ≠ 0
        ∧ scaleLength 16000000 rawTicks = rawTicks * 4096 / 15625
        ∧ ∀ h : Bool,
            measurementWord rawTicks (if h then 1 else 0) % 32768 = rawTicks * 4096 / 15625) := by
  have hl := limitedLength_16MHz rawTicks h2
  have hx : rawTicks * 4096 / 15625 ≤ 17179 := by omega
  refine ⟨?_, ?_, ?_⟩
  · rw [hl]
    omega
  · intro h3
    have h0 : rawTicks * 4096 / 15625 = 0 := by omega
    rw [scaleLength_parts, hl, h0]
    rfl
  · intro h4
    have hpos : 1 ≤ rawTicks * 4096 / 15625 := by omega
    have hs : scaleLength 16000000 rawTicks = rawTicks * 4096 / 15625 := by
      rw [scaleLength_parts, hl, if_neg (by omega)]
    refine ⟨by rw [hl]; omega, hs, ?_⟩
    intro h
    rw [measurementWord_low rawTicks h h2, Nat.min_eq_right (by omega), Nat.max_eq_right hpos]

/-- C20 at `rawTicks = 4`, the first tick count that is not bumped. -/
theorem C20_zero_bump_witness :
    1 ≤ 4 ∧ 4 ≤ 65535 ∧ 4 ≤ 4
    ∧ limitedLength (scaledLong 16000000 4) ≠ 0
    ∧ scaleLength 16000000 4 = 4 * 4096 / 15625 :=
  ⟨by decide, by decide, by decide,
    ((C20_zero_bump 4 (by decide) (by decide)).2.2 (by decide)).1,
    ((C20_zero_bump 4 (by decide) (by decide)).2.2 (by decide)).2.1⟩

end ArduinoLirc
